import Mathlib

/-!
Verification of the Isometric-Grid scene editor.

The definitions below are a shallow embedding of the repository's core:

* `src/utils/isometricUtils.js` — the pure coordinate transforms
  (`screenToIsometric`, `isometricToScreen`, `snapToGrid`,
  `calculateZIndex`, `calculateGridDimensions`).  JavaScript numbers are
  embedded as exact rationals `ℚ`; `Math.floor` is `Int.floor`.
* `src/context/SceneContext.jsx` — the scene model and history manager,
  embedded as explicit state passing over `SceneState`.  `Date.now()` is
  embedded by threading the current millisecond timestamp `now : Nat`
  through the operations that read the clock.
* `src/hooks/useDragDrop.js` — `calculateGridPosition`.
* `src/utils/sceneUtils.js` — validation, (de)serialization and the
  localStorage-backed named-slot persistence, embedded over an explicit
  key-value store state with explicit write-failure flags standing for a
  throwing `localStorage.setItem`.

Definitions come first, then the theorems about them.
-/

namespace IsoGrid

/-! ## Coordinate transforms (`src/utils/isometricUtils.js`) -/

/-- `screenToIsometric(screenX, screenY, tileWidth, tileHeight)`:
`isoX = Math.floor((screenX/(tileWidth/2) + screenY/(tileHeight/2)) / 2)`,
`isoY = Math.floor((screenY/(tileHeight/2) - screenX/(tileWidth/2)) / 2)`. -/
def screenToIsometric (screenX screenY tileWidth tileHeight : ℚ) : Int × Int :=
  (⌊(screenX / (tileWidth / 2) + screenY / (tileHeight / 2)) / 2⌋,
   ⌊(screenY / (tileHeight / 2) - screenX / (tileWidth / 2)) / 2⌋)

/-- `isometricToScreen(isoX, isoY, tileWidth, tileHeight)`:
`screenX = (isoX - isoY) * (tileWidth/2)`, `screenY = (isoX + isoY) * (tileHeight/2)`. -/
def isometricToScreen (isoX isoY tileWidth tileHeight : ℚ) : ℚ × ℚ :=
  ((isoX - isoY) * (tileWidth / 2), (isoX + isoY) * (tileHeight / 2))

/-- `snapToGrid(x, y, tileWidth, tileHeight)`: `screenToIsometric` then
`isometricToScreen`. -/
def snapToGrid (x y tileWidth tileHeight : ℚ) : ℚ × ℚ :=
  let iso := screenToIsometric x y tileWidth tileHeight
  isometricToScreen (iso.1 : ℚ) (iso.2 : ℚ) tileWidth tileHeight

/-- `calculateZIndex(x, y) = x + y`. -/
def calculateZIndex (x y : Int) : Int := x + y

/-- `calculateGridDimensions(gridWidth, gridHeight, tileWidth, tileHeight)`:
`width = (gridWidth + gridHeight) * (tileWidth/2)`,
`height = (gridWidth + gridHeight) * (tileHeight/2)`. -/
def calculateGridDimensions (gridWidth gridHeight tileWidth tileHeight : ℚ) : ℚ × ℚ :=
  ((gridWidth + gridHeight) * (tileWidth / 2), (gridWidth + gridHeight) * (tileHeight / 2))

/-! ## Scene model (`src/context/SceneContext.jsx`)

The provider's `useState` cells are gathered into one `SceneState` record and
every callback becomes a function `... → SceneState → SceneState`.  `Date.now()`
is passed in as `now : Nat` (milliseconds).  The claims all start from the
initialized provider, so `initState` already reflects the
`history.length === 0` effect that seeds `history = [[]]`, `historyIndex = 0`. -/

/-- A grid position `{x, y}` in grid cells. -/
structure Pos where
  x : Int
  y : Int
deriving DecidableEq, Repr

/-- A size `{width, height}` with integer entries (grid size in cells). -/
structure SizeI where
  width : Int
  height : Int
deriving DecidableEq, Repr

/-- A size `{width, height}` with numeric entries (tile size in pixels). -/
structure SizeQ where
  width : ℚ
  height : ℚ
deriving DecidableEq, Repr

/-- A scene element.  The repository's elements carry
`{id, type, position, rotation, scale}` (callers of `addElement` pass exactly
`type`, `position`, `rotation`, `scale`; the id is assigned by the model). -/
structure Element where
  id : String
  type : String
  position : Pos
  rotation : Int
  scale : ℚ
deriving DecidableEq, Repr

/-- The fields a caller passes to `addElement` (the `element` argument of
`addElement({type, position, rotation, scale})`; no caller passes an `id`,
so the spread `{...element}` never overrides the freshly assigned id). -/
structure NewElement where
  type : String
  position : Pos
  rotation : Int
  scale : ℚ
deriving DecidableEq, Repr

/-- A partial element update, as passed to `updateElement(id, updates)`;
the object spread `{...element, ...updates}` merges the present fields.
Callers in the repository update `position`, `rotation` and `scale`. -/
structure ElementUpdate where
  position : Option Pos
  rotation : Option Int
  scale : Option ℚ
deriving DecidableEq, Repr

/-- `{...element, ...updates}`: fields present in `updates` win. -/
def applyUpdate (u : ElementUpdate) (e : Element) : Element :=
  { e with
    position := u.position.getD e.position
    rotation := u.rotation.getD e.rotation
    scale := u.scale.getD e.scale }

/-- The `SceneProvider` state: one field per `useState` cell. -/
structure SceneState where
  gridSize : SizeI
  tileSize : SizeQ
  showGrid : Bool
  elements : List Element
  history : List (List Element)
  historyIndex : Nat
  zoom : ℚ
  offsetX : ℚ
  offsetY : ℚ
  selectedElementId : Option String
  sceneName : String
  sceneModified : Bool
deriving DecidableEq, Repr

/-- The provider's initial state, after the initialization effect has seeded
the history with the single empty entry (`setHistory([[]]); setHistoryIndex(0)`). -/
def initState : SceneState :=
  { gridSize := ⟨10, 10⟩
    tileSize := ⟨64, 32⟩
    showGrid := true
    elements := []
    history := [[]]
    historyIndex := 0
    zoom := 1
    offsetX := 0
    offsetY := 0
    selectedElementId := none
    sceneName := "Untitled Scene"
    sceneModified := false }

/-- `addToHistory(newElements)`: truncate the history after the cursor
(`prevHistory.slice(0, historyIndex + 1)`), append the snapshot, and advance
the cursor. -/
def addToHistory (newElements : List Element) (s : SceneState) : SceneState :=
  { s with
    history := s.history.take (s.historyIndex + 1) ++ [newElements]
    historyIndex := s.historyIndex + 1 }

/-- `addElement(element)`: append `{id: Date.now().toString(), ...element}`,
record the new collection in the history and mark the scene modified. -/
def addElement (now : Nat) (element : NewElement) (s : SceneState) : SceneState :=
  let newElements := s.elements ++
    [{ id := Nat.repr now
       type := element.type
       position := element.position
       rotation := element.rotation
       scale := element.scale }]
  { addToHistory newElements s with
    elements := newElements
    sceneModified := true }

/-- `updateElement(id, updates)`: map the merge over the collection (elements
with a different id are returned unchanged), record the new collection in the
history and mark the scene modified — this happens even when no id matches. -/
def updateElement (id : String) (updates : ElementUpdate) (s : SceneState) : SceneState :=
  let newElements := s.elements.map fun element =>
    if element.id = id then applyUpdate updates element else element
  { addToHistory newElements s with
    elements := newElements
    sceneModified := true }

/-- `removeElement(id)`: filter the element out, record the new collection in
the history, mark modified, and clear the selection if the removed id was
selected — again even when no id matches. -/
def removeElement (id : String) (s : SceneState) : SceneState :=
  let newElements := s.elements.filter fun element => element.id ≠ id
  { addToHistory newElements s with
    elements := newElements
    sceneModified := true
    selectedElementId :=
      if s.selectedElementId = some id then none else s.selectedElementId }

/-- `clearScene()`: record the empty collection, clear elements and selection,
mark modified. -/
def clearScene (s : SceneState) : SceneState :=
  { addToHistory [] s with
    elements := []
    selectedElementId := none
    sceneModified := true }

/-- The clone built by `duplicateElement`: same fields, fresh
`Date.now().toString()` id, position offset by `(1, 1)` (no clamping). -/
def mkClone (now : Nat) (orig : Element) : Element :=
  { orig with
    id := Nat.repr now
    position := ⟨orig.position.x + 1, orig.position.y + 1⟩ }

/-- `duplicateElement(id)`: if `elements.find` misses, return with no state
change; otherwise append the offset clone, record the new collection in the
history, mark modified, and select the clone. -/
def duplicateElement (now : Nat) (id : String) (s : SceneState) : SceneState :=
  match s.elements.find? (fun element => element.id = id) with
  | none => s
  | some orig =>
    let newElement := mkClone now orig
    let newElements := s.elements ++ [newElement]
    { addToHistory newElements s with
      elements := newElements
      sceneModified := true
      selectedElementId := some newElement.id }

/-- `undo()`: if `historyIndex > 0`, step the cursor back and restore
`history[historyIndex - 1]`; otherwise do nothing. -/
def undo (s : SceneState) : SceneState :=
  if 0 < s.historyIndex then
    { s with
      historyIndex := s.historyIndex - 1
      elements := s.history.getD (s.historyIndex - 1) []
      sceneModified := true }
  else s

/-- `redo()`: if `historyIndex < history.length - 1`, step the cursor forward
and restore `history[historyIndex + 1]`; otherwise do nothing. -/
def redo (s : SceneState) : SceneState :=
  if s.historyIndex + 1 < s.history.length then
    { s with
      historyIndex := s.historyIndex + 1
      elements := s.history.getD (s.historyIndex + 1) []
      sceneModified := true }
  else s

/-! ## Placement resolver (`src/hooks/useDragDrop.js`) -/

/-- `calculateGridPosition(x, y)`: undo pan/zoom
(`adjusted = (coord - offset) / zoom`), convert with `screenToIsometric`, then
clamp both axes with `Math.max(0, Math.min(gridSize - 1, Math.round(g)))`.
`Math.round` on the already-integral `screenToIsometric` output is the
identity, so only the clamp remains. -/
def calculateGridPosition (x y : ℚ) (offsetX offsetY zoom : ℚ)
    (tileW tileH : ℚ) (gridW gridH : Int) : Pos :=
  let adjustedX := (x - offsetX) / zoom
  let adjustedY := (y - offsetY) / zoom
  let g := screenToIsometric adjustedX adjustedY tileW tileH
  ⟨max 0 (min (gridW - 1) g.1), max 0 (min (gridH - 1) g.2)⟩

/-! ## Concrete scenario data -/

/-- A sample palette element used in concrete scenarios. -/
def treeAt55 : NewElement := ⟨"tree", ⟨5, 5⟩, 0, 1⟩

/-- A second sample palette element. -/
def rockAt11 : NewElement := ⟨"rock", ⟨1, 1⟩, 0, 1⟩

/-- The state after `addElement` at millisecond 100 of a tree at `(5, 5)`:
the concrete scenario of the spec. -/
def demoScene : SceneState := addElement 100 treeAt55 initState

/-- The element living in `demoScene`. -/
def demoElem : Element := ⟨"100", "tree", ⟨5, 5⟩, 0, 1⟩

/-- An update payload aimed at an id that is not present. -/
def ghostUpdate : ElementUpdate := ⟨some ⟨4, 5⟩, none, none⟩

/-- The history-recording step shared by every history-worthy mutation in
`SceneContext.jsx` (`addElement`, `updateElement`, `removeElement`,
`clearScene`, `duplicateElement`): push the new collection through
`addToHistory`, install it as the live collection, and mark the scene
modified. -/
def recordSnapshot (snapshot : List Element) (s : SceneState) : SceneState :=
  { addToHistory snapshot s with
    elements := snapshot
    sceneModified := true }

/-! ## Mutation sequences (claim C2) -/

/-- One scene-model mutation, as dispatched by the provider's callbacks. -/
inductive Mutation where
  | add (now : Nat) (element : NewElement)
  | update (id : String) (updates : ElementUpdate)
  | remove (id : String)
  | clear
  | dup (now : Nat) (id : String)
deriving DecidableEq, Repr

/-- Dispatch a mutation to the corresponding scene-model operation. -/
def applyMutation : Mutation → SceneState → SceneState
  | .add now element, s => addElement now element s
  | .update id updates, s => updateElement id updates s
  | .remove id, s => removeElement id s
  | .clear, s => clearScene s
  | .dup now id, s => duplicateElement now id s

/-- Apply a sequence of mutations left to right. -/
def applyMuts (ms : List Mutation) (s : SceneState) : SceneState :=
  ms.foldl (fun t m => applyMutation m t) s

/-- Whether a mutation records a history entry when applied in state `s`.
Every mutation records unconditionally except `duplicateElement`, which
returns early (recording nothing) when the id is missing. -/
def recordsAt (m : Mutation) (s : SceneState) : Bool :=
  match m with
  | .dup _ id => (s.elements.find? (fun element => element.id = id)).isSome
  | _ => true

/-- Every mutation of the sequence records a history entry at its point of
application. -/
def allRecord : SceneState → List Mutation → Bool
  | _, [] => true
  | s, m :: ms => recordsAt m s && allRecord (applyMutation m s) ms

/-- A concrete all-recording mutation run: add an element, move it, then
duplicate it one hundred milliseconds later. -/
def demoMuts : List Mutation :=
  [.add 1 rockAt11, .update "1" ghostUpdate, .dup 300 "1"]

/-! ## Validation and deserialization (`src/utils/sceneUtils.js`, claim C8)

`validateSceneData` receives whatever `JSON.parse` produced, so the blob is
embedded as a small JSON value type; JavaScript truthiness and property
access are embedded alongside. -/

/-- A JSON value, as produced by `JSON.parse` (`null` also stands for an
absent blob). -/
inductive JVal where
  | jnull
  | jbool (b : Bool)
  | jnum (q : ℚ)
  | jstr (s : String)
  | jarr (items : List JVal)
  | jobj (fields : List (String × JVal))

/-- JavaScript truthiness of a JSON value (`!sceneData` is its negation):
`null`, `false`, `0` and `""` are falsy, every array and object is truthy. -/
def truthy : JVal → Bool
  | .jnull => false
  | .jbool b => b
  | .jnum q => decide (q ≠ 0)
  | .jstr s => decide (s ≠ "")
  | .jarr _ => true
  | .jobj _ => true

/-- Property access `v.key`: a field lookup on objects, `undefined`
(here `none`) on every other value. -/
def getProp (v : JVal) (key : String) : Option JVal :=
  match v with
  | .jobj fields => (fields.find? (fun p => p.1 = key)).map (fun p => p.2)
  | _ => none

/-- `Array.isArray` applied to a possibly-`undefined` property. -/
def isArrayOpt : Option JVal → Bool
  | some (.jarr _) => true
  | _ => false

/-- `validateSceneData(sceneData)`: reject a falsy blob, reject when
`sceneData.elements` is not an array, and accept otherwise.  (The code also
binds `const version = sceneData.version || '1.0.0'` for future version
gating but never consults it, so a missing `version` cannot cause
rejection.) -/
def validateSceneData (sceneData : JVal) : Bool :=
  if truthy sceneData = false then false
  else if isArrayOpt (getProp sceneData "elements") = false then false
  else true

/-- The items of `sceneData.elements` (guarded by validation). -/
def elementsOf (sceneData : JVal) : List JVal :=
  match getProp sceneData "elements" with
  | some (.jarr items) => items
  | _ => []

/-- The scene state produced by `deserializeScene`: the element array (whose
per-element `{...element}` spread is a shallow copy, i.e. the identity at
this level of abstraction) plus `metadata?.gridSize` and
`metadata?.tileSize`. -/
structure DeserializedScene where
  elements : List JVal
  gridSize : Option JVal
  tileSize : Option JVal

/-- `deserializeScene(sceneData)`: throw `Error('Invalid scene data format')`
when `validateSceneData` rejects, otherwise return the scene state. -/
def deserializeScene (sceneData : JVal) : Except String DeserializedScene :=
  if validateSceneData sceneData = false then .error "Invalid scene data format"
  else .ok
    { elements := elementsOf sceneData
      gridSize := (getProp sceneData "metadata").bind (fun m => getProp m "gridSize")
      tileSize := (getProp sceneData "metadata").bind (fun m => getProp m "tileSize") }

/-- A minimal valid blob: an object whose `elements` field is an empty
array. -/
def demoBlob : JVal := .jobj [("elements", .jarr [])]

/-! ## Named-slot persistence (`src/utils/sceneUtils.js`, claim C9)

`localStorage` is embedded as an explicit state: the parsed content of the
`isometric-scenes-index` key and the blobs keyed by scene name (the blob key
`isometric-scene-<name>` never collides with the index key, so the name
suffices as the key).  A throwing `localStorage.setItem` — e.g. quota
exhaustion — is embedded as an explicit failure flag per write; the
surrounding `try`/`catch` then returns `false` with the store as the failed
write left it. -/

/-- An index entry `{name, timestamp, preview}`. -/
structure SceneInfo where
  name : String
  timestamp : Nat
  preview : Option String
deriving DecidableEq, Repr

/-- The scene state passed to `saveSceneToLocalStorage`
(`{elements, gridSize, tileSize}`). -/
structure SceneSnapshot where
  elements : List Element
  gridSize : SizeI
  tileSize : SizeQ
deriving DecidableEq, Repr

/-- The blob produced by `serializeScene`:
`{version, timestamp, metadata: {gridSize, tileSize}, elements}`. -/
structure SerializedScene where
  version : String
  timestamp : Nat
  gridSize : SizeI
  tileSize : SizeQ
  elements : List Element
deriving DecidableEq, Repr

/-- `serializeScene(sceneState)` — `new Date().toISOString()` is embedded as
the millisecond timestamp `now`. -/
def serializeScene (sceneState : SceneSnapshot) (now : Nat) : SerializedScene :=
  { version := "1.0.0"
    timestamp := now
    gridSize := sceneState.gridSize
    tileSize := sceneState.tileSize
    elements := sceneState.elements }

/-- The localStorage state: the parsed scenes index (absent key = `none`,
read back through `|| '[]'` as the empty list) and the named scene blobs. -/
structure LocalStore where
  indexEntries : Option (List SceneInfo)
  blobs : List (String × SerializedScene)
deriving DecidableEq, Repr

/-- A store with no saved key at all. -/
def emptyStore : LocalStore := ⟨none, []⟩

/-- `localStorage.setItem` on a blob key: overwrite the entry with this key,
or append a new one. -/
def setBlob (name : String) (v : SerializedScene) :
    List (String × SerializedScene) → List (String × SerializedScene)
  | [] => [(name, v)]
  | p :: rest => if p.1 = name then (name, v) :: rest else p :: setBlob name v rest

/-- `localStorage.getItem` on a blob key. -/
def getBlob (name : String) (blobs : List (String × SerializedScene)) :
    Option SerializedScene :=
  (blobs.find? (fun p => p.1 = name)).map (fun p => p.2)

/-- `localStorage.removeItem` on a blob key. -/
def removeBlob (name : String) (blobs : List (String × SerializedScene)) :
    List (String × SerializedScene) :=
  blobs.filter (fun p => p.1 ≠ name)

/-- The index update of `saveSceneToLocalStorage`: `findIndex` on the name
followed by in-place assignment when found, `push` otherwise — i.e. replace
the first entry with a matching name, else append. -/
def upsertIndexEntry (info : SceneInfo) : List SceneInfo → List SceneInfo
  | [] => [info]
  | e :: rest => if e.name = info.name then info :: rest else e :: upsertIndexEntry info rest

/-- `saveSceneToLocalStorage(name, sceneState)`: serialize, update the index
entry, write the index, then write the blob.  A throwing `setItem` is the
corresponding `...WriteFails` flag; the `catch` returns `false` and leaves
the store as the failed write left it (the index write has already happened
when the blob write fails). -/
def saveSceneToLocalStorage (name : String) (sceneState : SceneSnapshot) (now : Nat)
    (indexWriteFails blobWriteFails : Bool) (st : LocalStore) : Bool × LocalStore :=
  let serializedScene := serializeScene sceneState now
  let scenesIndex := st.indexEntries.getD []
  let sceneInfo : SceneInfo := ⟨name, now, none⟩
  let newIndex := upsertIndexEntry sceneInfo scenesIndex
  if indexWriteFails then (false, st)
  else
    let st1 : LocalStore := { st with indexEntries := some newIndex }
    if blobWriteFails then (false, st1)
    else (true, { st1 with blobs := setBlob name serializedScene st1.blobs })

/-- `deleteScene(name)`: filter the entry out of the index, write the index,
then remove the blob (`removeItem` cannot fail). -/
def deleteScene (name : String) (indexWriteFails : Bool) (st : LocalStore) :
    Bool × LocalStore :=
  let scenesIndex := st.indexEntries.getD []
  let updatedIndex := scenesIndex.filter (fun item => item.name ≠ name)
  if indexWriteFails then (false, st)
  else (true, { st with indexEntries := some updatedIndex, blobs := removeBlob name st.blobs })

/-- The store and its index agree: a name has an index entry exactly when a
blob is stored under it. -/
def inSync (st : LocalStore) : Prop :=
  ∀ name : String,
    ((st.indexEntries.getD []).any (fun e => e.name = name) = true ↔
      (getBlob name st.blobs).isSome = true)

/-- A sample scene snapshot. -/
def demoSnapshot : SceneSnapshot := ⟨[], ⟨10, 10⟩, ⟨64, 32⟩⟩

/-! ## Loading and importing scenes (claim C10)

`loadScene(name)` destructures the result of `loadSceneFromLocalStorage`,
`importScene(file)` the result of `importSceneFromJSON`; both guard each
field with truthiness (`loadedElements || []`, `if (loadedGridSize) ...`),
install the loaded data, and reset the history to the single loaded entry. -/

/-- The destructured scene state handed to `loadScene` / `importScene`
(`{elements, gridSize, tileSize}`; each field may be absent). -/
structure LoadedScene where
  elements : Option (List Element)
  gridSize : Option SizeI
  tileSize : Option SizeQ
deriving DecidableEq, Repr

/-- `loadScene(name)` after `loadSceneFromLocalStorage` returned
`sceneState`: on `null` return `false` and change nothing; otherwise install
the loaded fields, reset the history to `[loadedElements || []]` with the
cursor at 0, set the name, clear the modified flag, and return `true`. -/
def applyLoadedScene (sceneState : Option LoadedScene) (name : String)
    (s : SceneState) : Bool × SceneState :=
  match sceneState with
  | none => (false, s)
  | some loaded =>
    (true,
      { s with
        elements := loaded.elements.getD []
        gridSize := loaded.gridSize.getD s.gridSize
        tileSize := loaded.tileSize.getD s.tileSize
        history := [loaded.elements.getD []]
        historyIndex := 0
        sceneName := name
        sceneModified := false })

/-- The imported scene's name: the file name with its extension stripped by
`file.name.replace(/\.[^/.]+$/, '')` (the regex result is taken as the given
`baseName`), falling back to `'Imported Scene'` when empty. -/
def importedSceneName (baseName : String) : String :=
  if baseName = "" then "Imported Scene" else baseName

/-- `importScene(file)` after `importSceneFromJSON` resolved with
`sceneState`: the same installation as `loadScene` except that the name
comes from the file and the scene is marked modified. -/
def applyImportedScene (sceneState : Option LoadedScene) (baseName : String)
    (s : SceneState) : Bool × SceneState :=
  match sceneState with
  | none => (false, s)
  | some imported =>
    (true,
      { s with
        elements := imported.elements.getD []
        gridSize := imported.gridSize.getD s.gridSize
        tileSize := imported.tileSize.getD s.tileSize
        history := [imported.elements.getD []]
        historyIndex := 0
        sceneName := importedSceneName baseName
        sceneModified := true })

/-! ## Theorems -/

/-- Helper: the adjusted screen coordinates of a grid point are exactly the
grid-coordinate differences, once the positive tile dimension is cancelled. -/
theorem isometricToScreen_div (gx gy : ℤ) (tw th : ℚ) (htw : 0 < tw) (hth : 0 < th) :
    (isometricToScreen (gx : ℚ) (gy : ℚ) tw th).1 / (tw / 2) = ((gx : ℚ) - (gy : ℚ)) ∧
    (isometricToScreen (gx : ℚ) (gy : ℚ) tw th).2 / (th / 2) = ((gx : ℚ) + (gy : ℚ)) := by
  have h2 : tw / 2 ≠ 0 := by positivity
  have h3 : th / 2 ≠ 0 := by positivity
  constructor
  · simp only [isometricToScreen]
    exact mul_div_cancel_right₀ _ h2
  · simp only [isometricToScreen]
    exact mul_div_cancel_right₀ _ h3

/-- Claim C1: for every pair of integers `(gx, gy)` and every pair of positive
tile dimensions `(tw, th)`, `screenToIsometric` applied to the result of
`isometricToScreen` returns exactly `(gx, gy)`; in particular
`isometricToScreen 3 2 64 32 = (32, 80)` and
`screenToIsometric 32 80 64 32 = (3, 2)`. -/
theorem screenToIsometric_isometricToScreen_roundTrip
    (gx gy : ℤ) (tw th : ℚ) (htw : 0 < tw) (hth : 0 < th) :
    screenToIsometric (isometricToScreen (gx : ℚ) (gy : ℚ) tw th).1
        (isometricToScreen (gx : ℚ) (gy : ℚ) tw th).2 tw th = (gx, gy) ∧
    isometricToScreen 3 2 64 32 = (32, 80) ∧
    screenToIsometric 32 80 64 32 = (3, 2) := by
  obtain ⟨h1, h2⟩ := isometricToScreen_div gx gy tw th htw hth
  refine ⟨?_, by norm_num [isometricToScreen], by norm_num [screenToIsometric]⟩
  simp only [screenToIsometric, h1, h2, Prod.mk.injEq]
  constructor
  · have hx : (((gx : ℚ) - gy) + ((gx : ℚ) + gy)) / 2 = (gx : ℚ) := by ring
    rw [hx, Int.floor_intCast]
  · have hy : (((gx : ℚ) + gy) - ((gx : ℚ) - gy)) / 2 = (gy : ℚ) := by ring
    rw [hy, Int.floor_intCast]

/-- Witness for C1: the round trip evaluated at `gx = 3`, `gy = 2`,
`tw = 64`, `th = 32`. -/
theorem screenToIsometric_isometricToScreen_roundTrip_witness :
    (0 : ℚ) < 64 ∧ (0 : ℚ) < 32 ∧
    screenToIsometric (isometricToScreen ((3 : ℤ) : ℚ) ((2 : ℤ) : ℚ) 64 32).1
        (isometricToScreen ((3 : ℤ) : ℚ) ((2 : ℤ) : ℚ) 64 32).2 64 32 = (3, 2) :=
  ⟨by norm_num, by norm_num,
    (screenToIsometric_isometricToScreen_roundTrip 3 2 64 32 (by norm_num) (by norm_num)).1⟩

/-- Claim C4: for every release coordinate, pan offset, zoom and grid
configuration with at least one cell on each axis (the spec's `GridConfig`
and `ViewState` contracts supply `tw, th, zoom > 0`), the drag placement
position is inside `[0, gridWidth-1] × [0, gridHeight-1]`, so a placed or
moved element's stored position is always within bounds. -/
theorem calculateGridPosition_within_bounds
    (x y offsetX offsetY zoom tileW tileH : ℚ) (gridW gridH : Int)
    (hzoom : 0 < zoom) (htw : 0 < tileW) (hth : 0 < tileH)
    (hgw : 1 ≤ gridW) (hgh : 1 ≤ gridH) :
    0 ≤ (calculateGridPosition x y offsetX offsetY zoom tileW tileH gridW gridH).x ∧
    (calculateGridPosition x y offsetX offsetY zoom tileW tileH gridW gridH).x ≤ gridW - 1 ∧
    0 ≤ (calculateGridPosition x y offsetX offsetY zoom tileW tileH gridW gridH).y ∧
    (calculateGridPosition x y offsetX offsetY zoom tileW tileH gridW gridH).y ≤ gridH - 1 := by
  simp only [calculateGridPosition]
  refine ⟨le_max_left _ _, max_le ?_ (min_le_left _ _), le_max_left _ _,
    max_le ?_ (min_le_left _ _)⟩ <;> omega

/-- Witness for C4: the clamp evaluated at screen point `(100000, -3)`,
offset `(7, -2)`, zoom `1/2`, tile `64 × 32`, grid `10 × 10`. -/
theorem calculateGridPosition_within_bounds_witness :
    (0 : ℚ) < 1 / 2 ∧ (0 : ℚ) < 64 ∧ (0 : ℚ) < 32 ∧
    (1 : Int) ≤ 10 ∧
    0 ≤ (calculateGridPosition 100000 (-3) 7 (-2) (1 / 2) 64 32 10 10).x ∧
    (calculateGridPosition 100000 (-3) 7 (-2) (1 / 2) 64 32 10 10).x ≤ 10 - 1 := by
  have h := calculateGridPosition_within_bounds 100000 (-3) 7 (-2) (1 / 2) 64 32 10 10
    (by norm_num) (by norm_num) (by norm_num) (by norm_num) (by norm_num)
  exact ⟨by norm_num, by norm_num, by norm_num, by norm_num, h.1, h.2.1⟩

/-- Claim C3 (failing run): two `addElement` calls that both observe
`Date.now() = 100` — two adds within the same millisecond — assign the same
id `"100"` to both elements, so the freshly assigned id collides with a live
one. -/
theorem addElement_same_millisecond_id_collision :
    ((addElement 100 treeAt55 (addElement 100 rockAt11 initState)).elements.map
      Element.id) = ["100", "100"] ∧
    ¬ ((addElement 100 treeAt55 (addElement 100 rockAt11 initState)).elements.map
      Element.id).Nodup := by
  refine ⟨rfl, ?_⟩
  decide

/-- Claim C6 (counterexample): duplicating `demoScene`'s element in the same
millisecond in which it was created (`Date.now() = 100` again) appends a
clone whose id `"100"` equals the original's id — the ids are not distinct,
contradicting the claim at this explicit input. -/
theorem duplicateElement_same_millisecond_counterexample :
    (duplicateElement 100 "100" demoScene).elements.map Element.id = ["100", "100"] ∧
    ¬ ((duplicateElement 100 "100" demoScene).elements.map Element.id).Nodup := by
  refine ⟨rfl, ?_⟩
  decide

/-- Claim C6 (amended): when the id is found, `duplicateElement` appends a
clone at `position + (1, 1)` with no bounds clamping, records it in the
history, marks the scene modified and selects the clone; the clone's id is
the decimal string of the duplication timestamp and differs from the
original's id whenever that string differs from the original's id (in
particular whenever the duplication happens in a different millisecond from
the one encoded in the original's id).  When no element has the given id the
scene state is unchanged (and no clone is produced). -/
theorem duplicateElement_amended (s : SceneState) (id : String) (now : Nat) :
    (∀ orig, s.elements.find? (fun element => element.id = id) = some orig →
      duplicateElement now id s =
        { s with
          elements := s.elements ++ [mkClone now orig]
          history := s.history.take (s.historyIndex + 1) ++ [s.elements ++ [mkClone now orig]]
          historyIndex := s.historyIndex + 1
          sceneModified := true
          selectedElementId := some (Nat.repr now) } ∧
      (mkClone now orig).position = ⟨orig.position.x + 1, orig.position.y + 1⟩ ∧
      (Nat.repr now ≠ orig.id → (mkClone now orig).id ≠ orig.id)) ∧
    (s.elements.find? (fun element => element.id = id) = none →
      duplicateElement now id s = s) := by
  constructor
  · intro orig hfind
    refine ⟨?_, rfl, fun h => h⟩
    simp only [duplicateElement, hfind, addToHistory, mkClone]
  · intro hfind
    simp only [duplicateElement, hfind]

/-- Witness for C6 (amended): duplicating `demoScene`'s element one hundred
milliseconds later yields a clone with a distinct id. -/
theorem duplicateElement_amended_witness :
    demoScene.elements.find? (fun element => element.id = "100") = some demoElem ∧
    Nat.repr 200 ≠ demoElem.id ∧ (mkClone 200 demoElem).id ≠ demoElem.id :=
  ⟨by decide, by decide,
    ((duplicateElement_amended demoScene "100" 200).1 demoElem (by decide)).2.2 (by decide)⟩

/-- Claim C5 (counterexample): on the freshly initialized scene (no elements),
`updateElement("ghost", …)` leaves the collection unchanged but still appends
a duplicate snapshot to the history and flips `sceneModified` — history and
scene metadata are not left unchanged. -/
theorem updateElement_missing_id_counterexample :
    (updateElement "ghost" ghostUpdate initState).elements = initState.elements ∧
    (updateElement "ghost" ghostUpdate initState).history ≠ initState.history ∧
    (updateElement "ghost" ghostUpdate initState).sceneModified ≠ initState.sceneModified := by
  refine ⟨rfl, ?_, ?_⟩ <;> decide

/-- Every element of `l` is fixed by `f`, so mapping `f` is a no-op. -/
theorem list_map_fixed (l : List Element) (f : Element → Element)
    (h : ∀ e ∈ l, f e = e) : l.map f = l := by
  induction l with
  | nil => rfl
  | cons a t ih =>
    simp only [List.map_cons, h a (List.mem_cons_self a t),
      ih fun e he => h e (List.mem_cons_of_mem a he)]

/-- Every element of `l` satisfies `p`, so filtering by `p` is a no-op. -/
theorem list_filter_fixed (l : List Element) (p : Element → Bool)
    (h : ∀ e ∈ l, p e = true) : l.filter p = l := by
  induction l with
  | nil => rfl
  | cons a t ih =>
    simp only [List.filter_cons, h a (List.mem_cons_self a t), if_true,
      ih fun e he => h e (List.mem_cons_of_mem a he)]

/-- Claim C5 (amended): calling `updateElement` or `removeElement` with an id
not present in the collection raises no error and leaves the element
collection (and the scene name) unchanged, but still appends a duplicate
snapshot of the unchanged collection to the history, advances the history
cursor, and marks the scene modified. -/
theorem updateElement_removeElement_missing_id_amended
    (s : SceneState) (id : String) (u : ElementUpdate)
    (h : ∀ e ∈ s.elements, e.id ≠ id) :
    (updateElement id u s).elements = s.elements ∧
    (updateElement id u s).history = s.history.take (s.historyIndex + 1) ++ [s.elements] ∧
    (updateElement id u s).historyIndex = s.historyIndex + 1 ∧
    (updateElement id u s).sceneModified = true ∧
    (updateElement id u s).sceneName = s.sceneName ∧
    (removeElement id s).elements = s.elements ∧
    (removeElement id s).history = s.history.take (s.historyIndex + 1) ++ [s.elements] ∧
    (removeElement id s).historyIndex = s.historyIndex + 1 ∧
    (removeElement id s).sceneModified = true ∧
    (removeElement id s).sceneName = s.sceneName := by
  have hmap : (s.elements.map fun element =>
      if element.id = id then applyUpdate u element else element) = s.elements := by
    refine list_map_fixed _ _ fun e he => ?_
    simp [h e he]
  have hfil : (s.elements.filter fun element => element.id ≠ id) = s.elements := by
    refine list_filter_fixed _ _ fun e he => ?_
    simp [h e he]
  refine ⟨?_, ?_, rfl, rfl, rfl, ?_, ?_, rfl, rfl, rfl⟩ <;>
    simp only [updateElement, removeElement, addToHistory, hmap, hfil]

/-- Witness for C5 (amended): the amended behaviour evaluated on the
initialized scene and the absent id `"ghost"`. -/
theorem updateElement_removeElement_missing_id_amended_witness :
    (∀ e ∈ initState.elements, e.id ≠ "ghost") ∧
    (updateElement "ghost" ghostUpdate initState).elements = initState.elements ∧
    (updateElement "ghost" ghostUpdate initState).historyIndex = initState.historyIndex + 1 :=
  ⟨by decide,
    (updateElement_removeElement_missing_id_amended initState "ghost" ghostUpdate (by decide)).1,
    (updateElement_removeElement_missing_id_amended initState "ghost" ghostUpdate (by decide)).2.2.1⟩

/-- Claim C7: after `record(S1), record(S2), undo(), record(S3)` the
truncation in `addToHistory` has discarded `S2`: the history is exactly
`[[], S1, S3]` and `redo()` is a no-op. -/
theorem redo_noop_after_undo_branch_discard (S1 S2 S3 : List Element) :
    redo (recordSnapshot S3 (undo (recordSnapshot S2 (recordSnapshot S1 initState)))) =
      recordSnapshot S3 (undo (recordSnapshot S2 (recordSnapshot S1 initState))) ∧
    (recordSnapshot S3 (undo (recordSnapshot S2 (recordSnapshot S1 initState)))).history =
      [[], S1, S3] := by
  exact ⟨rfl, rfl⟩

/-- A recording mutation truncates the history after the cursor, appends the
new live collection, and advances the cursor by one. -/
theorem applyMutation_records (m : Mutation) (s : SceneState)
    (h : recordsAt m s = true) :
    (applyMutation m s).history =
      s.history.take (s.historyIndex + 1) ++ [(applyMutation m s).elements] ∧
    (applyMutation m s).historyIndex = s.historyIndex + 1 := by
  cases m with
  | add now element => exact ⟨rfl, rfl⟩
  | update id updates => exact ⟨rfl, rfl⟩
  | remove id => exact ⟨rfl, rfl⟩
  | clear => exact ⟨rfl, rfl⟩
  | dup now id =>
    simp only [recordsAt, Option.isSome_iff_exists] at h
    obtain ⟨orig, horig⟩ := h
    simp [applyMutation, duplicateElement, horig, addToHistory]

/-- `allRecord` over a sequence extended on the right. -/
theorem allRecord_append (s : SceneState) (l : List Mutation) (m : Mutation) :
    allRecord s (l ++ [m]) = (allRecord s l && recordsAt m (applyMuts l s)) := by
  induction l generalizing s with
  | nil => simp [allRecord, applyMuts]
  | cons a t ih =>
    rw [show (a :: t) ++ [m] = a :: (t ++ [m]) from rfl,
      show allRecord s (a :: (t ++ [m])) =
        (recordsAt a s && allRecord (applyMutation a s) (t ++ [m])) from rfl,
      ih,
      show allRecord s (a :: t) =
        (recordsAt a s && allRecord (applyMutation a s) t) from rfl,
      show applyMuts (a :: t) s = applyMuts t (applyMutation a s) from rfl,
      Bool.and_assoc]

/-- `applyMuts` over a sequence extended on the right. -/
theorem applyMuts_append_single (s : SceneState) (l : List Mutation) (m : Mutation) :
    applyMuts (l ++ [m]) s = applyMutation m (applyMuts l s) := by
  simp [applyMuts, List.foldl_append]

/-- Shape of the history after an all-recording run from the initialized
state: the cursor sits at `N` and the history lists, in order, the element
collections after each prefix of the run (the empty initial collection
first). -/
theorem applyMuts_shape (ms : List Mutation) (h : allRecord initState ms = true) :
    (applyMuts ms initState).historyIndex = ms.length ∧
    (applyMuts ms initState).history =
      (List.range (ms.length + 1)).map
        (fun k => (applyMuts (ms.take k) initState).elements) := by
  induction ms using List.reverseRecOn with
  | nil => exact ⟨rfl, rfl⟩
  | append_singleton l m ih =>
    rw [allRecord_append, Bool.and_eq_true] at h
    obtain ⟨hl, hm⟩ := h
    obtain ⟨hidx, hhist⟩ := ih hl
    have hrec := applyMutation_records m (applyMuts l initState) hm
    rw [applyMuts_append_single]
    have hlen : (l ++ [m]).length = l.length + 1 := by simp
    constructor
    · rw [hrec.2, hidx, hlen]
    · rw [hrec.1, hidx, hhist, hlen]
      have htake : ((List.range (l.length + 1)).map
          (fun k => (applyMuts (l.take k) initState).elements)).take (l.length + 1) =
          (List.range (l.length + 1)).map
            (fun k => (applyMuts (l.take k) initState).elements) := by
        apply List.take_of_length_le
        simp
      have hsplit : List.range (l.length + 1 + 1) =
          List.range (l.length + 1) ++ [l.length + 1] := List.range_succ (l.length + 1)
      rw [htake, hsplit, List.map_append]
      congr 1
      · apply List.map_congr_left
        intro k hk
        rw [List.mem_range] at hk
        rw [List.take_append_of_le_length (by omega)]
      · simp only [List.map_cons, List.map_nil, List.cons.injEq, and_true]
        rw [List.take_of_length_le (by simp), applyMuts_append_single]

/-- Iterating `undo` from a cursor-aligned state: `j` undos step the cursor
back `j` entries and restore the snapshot there. -/
theorem undo_iter (j : Nat) : ∀ (s : SceneState),
    s.historyIndex < s.history.length →
    s.elements = s.history.getD s.historyIndex [] →
    j ≤ s.historyIndex →
    (undo^[j] s).history = s.history ∧
    (undo^[j] s).historyIndex = s.historyIndex - j ∧
    (undo^[j] s).elements = s.history.getD (s.historyIndex - j) [] := by
  induction j with
  | zero =>
    intro s _ h2 _
    exact ⟨rfl, rfl, h2⟩
  | succ j ih =>
    intro s h1 h2 h3
    have hpos : 0 < s.historyIndex := by omega
    have hu : undo s =
        { s with
          historyIndex := s.historyIndex - 1
          elements := s.history.getD (s.historyIndex - 1) []
          sceneModified := true } := by
      rw [undo, if_pos hpos]
    have hh : (undo s).history = s.history := by rw [hu]
    have hi : (undo s).historyIndex = s.historyIndex - 1 := by rw [hu]
    have he : (undo s).elements = s.history.getD (s.historyIndex - 1) [] := by rw [hu]
    obtain ⟨hH, hI, hE⟩ := ih (undo s)
      (by rw [hh, hi]; omega)
      (by rw [he, hh, hi])
      (by rw [hi]; omega)
    rw [Function.iterate_succ_apply]
    refine ⟨by rw [hH, hh], by rw [hI, hi]; omega, ?_⟩
    rw [hE, hh, hi]
    congr 1
    omega

/-- Iterating `redo` from a cursor-aligned state: `k` redos step the cursor
forward `k` entries and restore the snapshot there. -/
theorem redo_iter (k : Nat) : ∀ (s : SceneState),
    s.elements = s.history.getD s.historyIndex [] →
    s.historyIndex + k < s.history.length →
    (redo^[k] s).history = s.history ∧
    (redo^[k] s).historyIndex = s.historyIndex + k ∧
    (redo^[k] s).elements = s.history.getD (s.historyIndex + k) [] := by
  induction k with
  | zero =>
    intro s h1 _
    exact ⟨rfl, rfl, h1⟩
  | succ k ih =>
    intro s h1 h2
    have hlt : s.historyIndex + 1 < s.history.length := by omega
    have hr : redo s =
        { s with
          historyIndex := s.historyIndex + 1
          elements := s.history.getD (s.historyIndex + 1) []
          sceneModified := true } := by
      rw [redo, if_pos hlt]
    have hh : (redo s).history = s.history := by rw [hr]
    have hi : (redo s).historyIndex = s.historyIndex + 1 := by rw [hr]
    have he : (redo s).elements = s.history.getD (s.historyIndex + 1) [] := by rw [hr]
    obtain ⟨hH, hI, hE⟩ := ih (redo s)
      (by rw [he, hh, hi])
      (by rw [hi, hh]; omega)
    rw [Function.iterate_succ_apply]
    refine ⟨by rw [hH, hh], by rw [hI, hi]; omega, ?_⟩
    rw [hE, hh, hi]
    congr 1
    omega

/-- Claim C2: from the initialized history (one empty entry, cursor 0), after
any sequence of `N` history-recording mutations, `undo` called `N` times
restores exactly the initial empty element collection; one further `undo` is
a no-op (the state is unchanged); and `k` redos after those undos restore,
step by step, the collection produced by the first `k` mutations, up to
state `N`. -/
theorem history_bounds_undo_redo (ms : List Mutation)
    (h : allRecord initState ms = true) :
    (undo^[ms.length] (applyMuts ms initState)).elements = [] ∧
    undo (undo^[ms.length] (applyMuts ms initState)) =
      undo^[ms.length] (applyMuts ms initState) ∧
    ∀ k, k ≤ ms.length →
      (redo^[k] (undo^[ms.length] (applyMuts ms initState))).elements =
        (applyMuts (ms.take k) initState).elements := by
  obtain ⟨hidx, hhist⟩ := applyMuts_shape ms h
  have hlen : (applyMuts ms initState).history.length = ms.length + 1 := by
    rw [hhist]
    simp
  have hgetD : ∀ k, k ≤ ms.length →
      (applyMuts ms initState).history.getD k [] =
        (applyMuts (ms.take k) initState).elements := by
    intro k hk
    rw [hhist, List.getD_eq_getElem?_getD, List.getElem?_map,
      List.getElem?_range (by omega)]
    rfl
  have halign : (applyMuts ms initState).elements =
      (applyMuts ms initState).history.getD (applyMuts ms initState).historyIndex [] := by
    rw [hidx, hgetD ms.length (le_refl _), List.take_length]
  obtain ⟨hH, hI, hE⟩ := undo_iter ms.length (applyMuts ms initState)
    (by rw [hidx, hlen]; omega) halign (by rw [hidx])
  have hIdx0 : (undo^[ms.length] (applyMuts ms initState)).historyIndex = 0 := by
    rw [hI, hidx]
    omega
  have hsub : ms.length - ms.length = 0 := by omega
  have hU : (undo^[ms.length] (applyMuts ms initState)).elements = [] := by
    rw [hE, hidx, hsub, hgetD 0 (by omega)]
    rfl
  refine ⟨hU, ?_, ?_⟩
  · rw [undo, hIdx0]
    simp
  · intro k hk
    obtain ⟨hH2, _, hE2⟩ := redo_iter k (undo^[ms.length] (applyMuts ms initState))
      (by rw [hU, hH, hIdx0, hgetD 0 (by omega)]; rfl)
      (by rw [hIdx0, hH, hlen]; omega)
    rw [hE2, hH, hIdx0]
    have hzk : 0 + k = k := by omega
    rw [hzk, hgetD k hk]

/-- Witness for C2: the history-bounds theorem exercised on `demoMuts`
(three recording mutations). -/
theorem history_bounds_undo_redo_witness :
    allRecord initState demoMuts = true ∧
    (undo^[demoMuts.length] (applyMuts demoMuts initState)).elements = [] :=
  ⟨by decide, (history_bounds_undo_redo demoMuts (by decide)).1⟩

/-- Claim C8: `validateSceneData` accepts a blob exactly when it is present
(not `null`) and its `elements` field is array-typed — a missing `version`
field never causes rejection (validation does not depend on it) — and
`deserializeScene` fails with the schema error for exactly the blobs that
validation rejects, returning the deserialized scene state otherwise. -/
theorem validateSceneData_deserializeScene_schema (sceneData : JVal) :
    (validateSceneData sceneData = true ↔
      (sceneData ≠ JVal.jnull ∧
        ∃ items, getProp sceneData "elements" = some (.jarr items))) ∧
    (deserializeScene sceneData = .error "Invalid scene data format" ↔
      validateSceneData sceneData = false) ∧
    (validateSceneData sceneData = true →
      deserializeScene sceneData = .ok
        { elements := elementsOf sceneData
          gridSize := (getProp sceneData "metadata").bind (fun m => getProp m "gridSize")
          tileSize := (getProp sceneData "metadata").bind (fun m => getProp m "tileSize") }) := by
  refine ⟨?_, ?_, ?_⟩
  · cases sceneData with
    | jobj fields =>
      cases hx : getProp (.jobj fields) "elements" with
      | none => simp [validateSceneData, truthy, isArrayOpt, hx]
      | some v => cases v <;> simp [validateSceneData, truthy, isArrayOpt, hx]
    | jnull => simp [validateSceneData, truthy]
    | jbool b => cases b <;> simp [validateSceneData, truthy, getProp, isArrayOpt]
    | jnum q => simp [validateSceneData, truthy, getProp, isArrayOpt]
    | jstr s => simp [validateSceneData, truthy, getProp, isArrayOpt]
    | jarr items => simp [validateSceneData, truthy, getProp, isArrayOpt]
  · cases hv : validateSceneData sceneData <;> simp [deserializeScene, hv]
  · intro hv
    simp [deserializeScene, hv]

/-- Witness for C8: the minimal valid blob passes validation and
deserializes successfully. -/
theorem validateSceneData_deserializeScene_schema_witness :
    validateSceneData demoBlob = true ∧
    deserializeScene demoBlob = .ok
      { elements := elementsOf demoBlob
        gridSize := (getProp demoBlob "metadata").bind (fun m => getProp m "gridSize")
        tileSize := (getProp demoBlob "metadata").bind (fun m => getProp m "tileSize") } :=
  ⟨rfl, (validateSceneData_deserializeScene_schema demoBlob).2.2 rfl⟩

/-- Claim C9 (counterexample): saving a new name into an empty (in-sync)
store with a successful index write followed by a failing blob write leaves
an index entry for `"A"` with no stored blob — the store and index
desynchronize, contradicting the claim's partial-failure clause. -/
theorem save_partial_failure_desync_counterexample :
    ¬ inSync (saveSceneToLocalStorage "A" demoSnapshot 0 false true emptyStore).2 := by
  intro h
  have hA := h "A"
  simp [saveSceneToLocalStorage, emptyStore, upsertIndexEntry, getBlob, inSync] at hA

/-- `upsertIndexEntry` adds the new entry's name to the index's name set and
changes no other name's membership. -/
theorem upsertIndexEntry_any (info : SceneInfo) (l : List SceneInfo) (n : String) :
    (upsertIndexEntry info l).any (fun e => e.name = n) =
      (l.any (fun e => e.name = n) || decide (info.name = n)) := by
  induction l with
  | nil => simp [upsertIndexEntry]
  | cons e rest ih =>
    by_cases heq : e.name = info.name
    · simp only [upsertIndexEntry, heq, if_pos, List.any_cons]
      cases hd : decide (info.name = n) <;> simp [hd]
    · simp only [upsertIndexEntry, if_neg heq, List.any_cons, Bool.or_assoc]
      rw [ih]

/-- `setBlob` stores the new blob under its key and leaves every other key's
lookup unchanged. -/
theorem getBlob_setBlob (k n : String) (v : SerializedScene)
    (l : List (String × SerializedScene)) :
    getBlob n (setBlob k v l) = if k = n then some v else getBlob n l := by
  induction l with
  | nil =>
    by_cases hkn : k = n <;> simp [setBlob, getBlob, List.find?, hkn]
  | cons p rest ih =>
    by_cases hpk : p.1 = k
    · have hs : setBlob k v (p :: rest) = (k, v) :: rest := by
        simp [setBlob, hpk]
      rw [hs]
      by_cases hkn : k = n
      · simp [getBlob, List.find?, hkn]
      · have hpn : ¬ p.1 = n := by rw [hpk]; exact hkn
        simp [getBlob, List.find?, hkn, hpn]
    · have hs : setBlob k v (p :: rest) = p :: setBlob k v rest := by
        simp [setBlob, hpk]
      rw [hs]
      by_cases hpn : p.1 = n
      · have hkn : ¬ k = n := by
          intro hkn
          exact hpk (by rw [hpn, hkn])
        have h1 : List.find? (fun q => q.1 = n) (p :: setBlob k v rest) = some p := by
          simp [List.find?, hpn]
        have h2 : List.find? (fun q => q.1 = n) (p :: rest) = some p := by
          simp [List.find?, hpn]
        simp [getBlob, h1, h2, hkn]
      · have h1 : getBlob n (p :: setBlob k v rest) = getBlob n (setBlob k v rest) := by
          simp [getBlob, List.find?, hpn]
        have h2 : getBlob n (p :: rest) = getBlob n rest := by
          simp [getBlob, List.find?, hpn]
        rw [h1, h2, ih]

/-- `removeBlob` empties its key's lookup and leaves every other key's
lookup unchanged. -/
theorem getBlob_removeBlob (k n : String) (l : List (String × SerializedScene)) :
    getBlob n (removeBlob k l) = if k = n then none else getBlob n l := by
  induction l with
  | nil =>
    by_cases hkn : k = n <;> simp [removeBlob, getBlob, List.find?, hkn]
  | cons p rest ih =>
    by_cases hpk : p.1 = k
    · have hs : removeBlob k (p :: rest) = removeBlob k rest := by
        simp [removeBlob, hpk]
      rw [hs, ih]
      by_cases hkn : k = n
      · simp [hkn]
      · have hpn : ¬ p.1 = n := by rw [hpk]; exact hkn
        simp [hkn, getBlob, List.find?, hpn]
    · have hs : removeBlob k (p :: rest) = p :: removeBlob k rest := by
        simp [removeBlob, hpk]
      rw [hs]
      by_cases hpn : p.1 = n
      · have hkn : ¬ k = n := by
          intro hkn
          exact hpk (by rw [hpn, hkn])
        simp [getBlob, List.find?, hpn, hkn]
      · have h1 : getBlob n (p :: removeBlob k rest) = getBlob n (removeBlob k rest) := by
          simp [getBlob, List.find?, hpn]
        have h2 : getBlob n (p :: rest) = getBlob n rest := by
          simp [getBlob, List.find?, hpn]
        rw [h1, h2, ih]

/-- Filtering an index by "name differs from `k`" kills exactly `k`'s
membership and no other name's. -/
theorem filter_index_any (k n : String) (l : List SceneInfo) :
    ((l.filter fun item => item.name ≠ k).any fun e => e.name = n) =
      (if k = n then false else l.any fun e => e.name = n) := by
  induction l with
  | nil => by_cases hkn : k = n <;> simp [hkn]
  | cons e rest ih =>
    by_cases hek : e.name = k
    · have hs : ((e :: rest).filter fun item => item.name ≠ k) =
          rest.filter fun item => item.name ≠ k := by
        simp [List.filter_cons, hek]
      rw [hs, ih]
      by_cases hkn : k = n
      · simp [hkn]
      · have hen : ¬ e.name = n := by rw [hek]; exact hkn
        simp [hkn, List.any_cons, hen]
    · have hs : ((e :: rest).filter fun item => item.name ≠ k) =
          e :: rest.filter fun item => item.name ≠ k := by
        simp [List.filter_cons, hek]
      rw [hs, List.any_cons, ih, List.any_cons]
      by_cases hkn : k = n
      · have hen : ¬ e.name = n := by rw [← hkn] at *; exact hek
        simp [hkn, hen]
      · simp [hkn]

/-- Claim C9 (amended): after every save-by-name in which both underlying
store writes succeed, and after every delete-by-name (regardless of whether
its index write succeeds), a store whose named-slot blobs and index agreed
beforehand still agrees: a blob exists under a name exactly when an index
entry with that name exists.  (When the blob write fails after the index
write during the save of a new name, the two desynchronize — see the
counterexample.) -/
theorem save_delete_inSync_amended (st : LocalStore) (name : String)
    (sceneState : SceneSnapshot) (now : Nat) (h : inSync st) :
    inSync (saveSceneToLocalStorage name sceneState now false false st).2 ∧
    ∀ indexWriteFails : Bool, inSync (deleteScene name indexWriteFails st).2 := by
  constructor
  · intro n
    show (upsertIndexEntry ⟨name, now, none⟩ (st.indexEntries.getD [])).any
        (fun e => e.name = n) = true ↔
      (getBlob n (setBlob name (serializeScene sceneState now) st.blobs)).isSome = true
    rw [upsertIndexEntry_any, getBlob_setBlob]
    by_cases hnn : name = n
    · simp [hnn]
    · simp [hnn, h n]
  · intro indexWriteFails n
    cases indexWriteFails with
    | true => exact h n
    | false =>
      show ((st.indexEntries.getD []).filter fun item => item.name ≠ name).any
          (fun e => e.name = n) = true ↔
        (getBlob n (removeBlob name st.blobs)).isSome = true
      rw [filter_index_any, getBlob_removeBlob]
      by_cases hnn : name = n
      · simp [hnn]
      · simp [hnn, h n]

/-- Witness for C9 (amended): a save with both writes succeeding into the
empty store keeps it in sync. -/
theorem save_delete_inSync_amended_witness :
    inSync emptyStore ∧
    inSync (saveSceneToLocalStorage "A" demoSnapshot 0 false false emptyStore).2 := by
  have h0 : inSync emptyStore := by
    intro n
    simp [inSync, emptyStore, getBlob]
  exact ⟨h0, (save_delete_inSync_amended emptyStore "A" demoSnapshot 0 h0).1⟩

/-- Claim C10: after every successful `loadScene` and every successful
`importScene` the history is exactly one entry — the loaded element
collection — with the cursor at 0, so an immediate `undo()` and an immediate
`redo()` are both no-ops and no previous history entry survives. -/
theorem load_import_reset_history (loaded : LoadedScene) (name baseName : String)
    (s : SceneState) :
    (applyLoadedScene (some loaded) name s).1 = true ∧
    (applyLoadedScene (some loaded) name s).2.history =
      [(applyLoadedScene (some loaded) name s).2.elements] ∧
    (applyLoadedScene (some loaded) name s).2.historyIndex = 0 ∧
    undo (applyLoadedScene (some loaded) name s).2 =
      (applyLoadedScene (some loaded) name s).2 ∧
    redo (applyLoadedScene (some loaded) name s).2 =
      (applyLoadedScene (some loaded) name s).2 ∧
    (applyImportedScene (some loaded) baseName s).1 = true ∧
    (applyImportedScene (some loaded) baseName s).2.history =
      [(applyImportedScene (some loaded) baseName s).2.elements] ∧
    (applyImportedScene (some loaded) baseName s).2.historyIndex = 0 ∧
    undo (applyImportedScene (some loaded) baseName s).2 =
      (applyImportedScene (some loaded) baseName s).2 ∧
    redo (applyImportedScene (some loaded) baseName s).2 =
      (applyImportedScene (some loaded) baseName s).2 :=
  ⟨rfl, rfl, rfl, rfl, rfl, rfl, rfl, rfl, rfl, rfl⟩

end IsoGrid
